import Mathlib

/-!
Shallow embedding of `src/slot.rs` from the `slotmap` repository: a versioned
slot holding at most one value, with a `u32` generation counter whose parity
encodes occupancy, plus the optional serde adapter (`SafeSlot`, serialize,
deserialize).

Modelling conventions:
* `u32` is `Nat`; the only arithmetic that can overflow is
  `version.wrapping_add(1)` in `remove_value`, embedded as `(version + 1) % 2^32`.
  `version |= 1` cannot overflow and is embedded as `version ||| 1`.
* The possibly-uninitialized storage cell (Rust field `value : ManuallyDrop<T>`)
  is embedded as `storage : Option T`, where `none` stands for uninitialized
  memory.  A Rust function that hands out a reference `&T` to the cell is
  embedded as returning the cell's contents `Option T`; so the checked
  accessors, of Rust type `Option<&T>`, here return `Option (Option T)`:
  the outer layer is the `Option` the Rust function returns, the inner layer
  records whether the memory behind the reference was initialized.
-/

/-- Rust `u32` modulus. -/
def u32Mod : Nat := 2 ^ 32

/-- Embeds the helper `fn to_option<T>(b: bool, some: T) -> Option<T>`. -/
def to_option {T : Type} (b : Bool) (some : T) : Option T :=
  match b with
  | true => Option.some some
  | false => Option.none

/-- Embeds `struct Slot<T>`.  The Rust field `value` is called `storage` here
(Lean forbids a field and a method of the same name); `none` models
uninitialized memory. -/
structure Slot (T : Type) where
  storage : Option T
  version : Nat
  next_free : Nat
deriving DecidableEq, Repr

/-- Embeds `Slot::new`: vacant, version 0, uninitialized storage. -/
def Slot.new {T : Type} : Slot T :=
  { storage := none, version := 0, next_free := 0 }

/-- Embeds `Slot::occupied`: `self.version % 2 > 0`. -/
def Slot.occupied {T : Type} (s : Slot T) : Bool :=
  decide (s.version % 2 > 0)

/-- Embeds `Slot::occupied_version`: `self.version | 1`. -/
def Slot.occupied_version {T : Type} (s : Slot T) : Nat :=
  s.version ||| 1

/-- Embeds `Slot::has_version`: `self.version == version`. -/
def Slot.has_version {T : Type} (s : Slot T) (version : Nat) : Bool :=
  s.version == version

/-- Embeds `Slot::value`: `to_option(self.occupied(), &self.value)`. -/
def Slot.value {T : Type} (s : Slot T) : Option (Option T) :=
  to_option s.occupied s.storage

/-- Embeds `Slot::value_mut`. -/
def Slot.value_mut {T : Type} (s : Slot T) : Option (Option T) :=
  to_option s.occupied s.storage

/-- Embeds `Slot::get_versioned`: `to_option(self.has_version(version), &self.value)`. -/
def Slot.get_versioned {T : Type} (s : Slot T) (version : Nat) : Option (Option T) :=
  to_option (s.has_version version) s.storage

/-- Embeds `Slot::get_versioned_mut`. -/
def Slot.get_versioned_mut {T : Type} (s : Slot T) (version : Nat) : Option (Option T) :=
  to_option (s.has_version version) s.storage

/-- Embeds `Slot::store_value`: `self.version |= 1; self.value = ManuallyDrop::new(value)`. -/
def Slot.store_value {T : Type} (s : Slot T) (value : T) : Slot T :=
  { s with version := s.version ||| 1, storage := some value }

/-- Embeds `Slot::remove_value`: `self.version = self.version.wrapping_add(1)`,
then the value is moved out (returned second component), leaving the storage
uninitialized. -/
def Slot.remove_value {T : Type} (s : Slot T) : Slot T × Option T :=
  ({ s with version := (s.version + 1) % u32Mod, storage := none }, s.storage)

/-- Embeds `impl Clone for Slot<T>`: clone the contained value only when
occupied, otherwise leave the storage uninitialized; `version` and `next_free`
are copied.  `cloneFn` stands for `T::clone`. -/
def Slot.clone {T : Type} (cloneFn : T → T) (s : Slot T) : Slot T :=
  { storage := if s.occupied then s.storage.map cloneFn else none,
    version := s.version,
    next_free := s.next_free }

/-- Embeds `struct SafeSlot<T> { value: Option<T>, version: u32 }`, the
persisted form of a slot. -/
structure SafeSlot (T : Type) where
  value : Option T
  version : Nat
deriving DecidableEq, Repr

/-- Embeds `From<SafeSlot<T>> for Slot<T>`: `next_free` is reset to 0, a
missing value leaves the storage uninitialized. -/
def Slot.fromSafe {T : Type} (safe : SafeSlot T) : Slot T :=
  { storage := safe.value, version := safe.version, next_free := 0 }

/-- Embeds `From<&Slot<T>> for SafeSlot<&T>`: `value` is `slot.value()`
(flattened: a reference to initialized storage yields that value). -/
def SafeSlot.fromSlot {T : Type} (s : Slot T) : SafeSlot T :=
  { value := s.value.join, version := s.version }

/-- Embeds `impl Serialize for Slot<T>`: the wire form is the `SafeSlot`
record built by `SafeSlot::from`. -/
def Slot.serialize {T : Type} (s : Slot T) : SafeSlot T :=
  SafeSlot.fromSlot s

/-- Embeds `impl Deserialize for Slot<T>`: parse a `SafeSlot`, reject it when
occupancy (version parity) and value presence disagree, otherwise convert via
`Slot::from`. -/
def Slot.deserialize {T : Type} (safe : SafeSlot T) : Except String (Slot T) :=
  let occupied := decide (safe.version % 2 > 0)
  if occupied ^^ safe.value.isSome then
    Except.error "inconsistent occupation in Slot"
  else
    Except.ok (Slot.fromSafe safe)

/-- The state invariant of a well-formed slot: the version is odd exactly when
the storage holds an initialized value, and the version fits in a `u32`. -/
def Slot.Inv {T : Type} (s : Slot T) : Prop :=
  (s.version % 2 = 1 ↔ s.storage.isSome = true) ∧ s.version < u32Mod

/-- The operations an external arena performs on a single slot. -/
inductive Op (T : Type) where
  | store (v : T)
  | remove
deriving DecidableEq, Repr

/-- One operation applied to a slot (the value returned by `remove_value` is
discarded; only the slot state is tracked). -/
def Slot.applyOp {T : Type} (s : Slot T) (op : Op T) : Slot T :=
  match op with
  | Op.store v => s.store_value v
  | Op.remove => (s.remove_value).fst

/-- A sequence of operations is valid from a state when each `store_value` is
applied only to a vacant slot and each `remove_value` only to an occupied
slot — the `unsafe` preconditions documented in the source. -/
def Slot.ValidFrom {T : Type} (s : Slot T) : List (Op T) → Prop
  | [] => True
  | op :: rest =>
    (match op with
     | Op.store _ => s.occupied = false
     | Op.remove => s.occupied = true) ∧ Slot.ValidFrom (s.applyOp op) rest

/-- Running a list of operations from a state. -/
def Slot.run {T : Type} (s : Slot T) (ops : List (Op T)) : Slot T :=
  ops.foldl Slot.applyOp s

/- ### Helper lemmas about `n ||| 1` -/

theorem lor_one_eq (n : Nat) : n ||| 1 = 2 * (n / 2) + 1 := by
  rcases eq_or_ne n 0 with h | h
  · subst h; rfl
  · have key := Nat.bitwise_of_ne_zero (f := or) h (m := 1) one_ne_zero
    have hz : Nat.bitwise or (n / 2) (1 / 2) = n / 2 := by
      norm_num [Nat.bitwise_zero_right]
    rw [show n ||| 1 = Nat.bitwise or n 1 from rfl, key, hz,
      show Nat.bodd 1 = true from rfl, Bool.or_true, Nat.bit_val]
    simp

theorem lor_one_of_even {n : Nat} (h : n % 2 = 0) : n ||| 1 = n + 1 := by
  rw [lor_one_eq]; omega

theorem lor_one_of_odd {n : Nat} (h : n % 2 = 1) : n ||| 1 = n := by
  rw [lor_one_eq]; omega

theorem lor_one_odd (n : Nat) : (n ||| 1) % 2 = 1 := by
  rw [lor_one_eq]; omega

/- ### Basic lemmas about the embedded operations -/

theorem occupied_iff_mod_two {T : Type} (s : Slot T) :
    s.occupied = true ↔ s.version % 2 = 1 := by
  simp only [Slot.occupied, decide_eq_true_eq]
  omega

theorem get_versioned_eq_none_of_ne {T : Type} (s : Slot T) (v : Nat)
    (h : s.version ≠ v) : s.get_versioned v = none := by
  have hb : s.has_version v = false := by
    simp [Slot.has_version, h]
  simp [Slot.get_versioned, hb, to_option]

/- ### Claim theorems -/

/-- Claim C1, counterexample: on a fresh slot (version 0, vacant),
`has_version 0` returns `true` although the slot is not occupied, and
`get_versioned 0` returns a value (a reference to uninitialized storage). -/
theorem C1_counterexample :
    (Slot.new : Slot Nat).has_version 0 = true ∧
    (Slot.new : Slot Nat).occupied = false ∧
    ((Slot.new : Slot Nat).get_versioned 0).isSome = true := by decide

/-- Claim C1, amended: `has_version v` is exact equality with the current
version, so for every ODD version `v` it returns `true` only if the slot is
occupied and `v` equals the current version; consequently `get_versioned v`
and `get_versioned_mut v` with odd `v` return a value only when the slot is
occupied.  (For an even `v` matching a vacant slot's version the check can
succeed, see the counterexample.) -/
theorem C1_has_version_only_occupied {T : Type} (s : Slot T) (v : Nat)
    (hv : v % 2 = 1) :
    (s.has_version v = true → s.occupied = true ∧ s.version = v) ∧
    ((s.get_versioned v).isSome = true → s.occupied = true) ∧
    ((s.get_versioned_mut v).isSome = true → s.occupied = true) := by
  have main : s.has_version v = true → s.occupied = true ∧ s.version = v := by
    intro h
    have hv' : s.version = v := by
      simpa [Slot.has_version] using h
    refine ⟨?_, hv'⟩
    rw [occupied_iff_mod_two, hv']
    exact hv
  refine ⟨main, ?_, ?_⟩ <;> intro h
  · rcases hb : s.has_version v with _ | _
    · simp [Slot.get_versioned, hb, to_option] at h
    · exact (main hb).1
  · rcases hb : s.has_version v with _ | _
    · simp [Slot.get_versioned_mut, hb, to_option] at h
    · exact (main hb).1

/-- Witness for C1: instantiated at an occupied slot with version 1. -/
theorem C1_witness :
    ({ storage := some 5, version := 1, next_free := 0 } : Slot Nat).occupied = true ∧
    ({ storage := some 5, version := 1, next_free := 0 } : Slot Nat).version = 1 :=
  (C1_has_version_only_occupied
    ({ storage := some 5, version := 1, next_free := 0 } : Slot Nat) 1 (by decide)).1
    (by decide)

/-- Claim C2: for every sequence of `store_value`/`remove_value` operations
from `new()` in which each store hits a vacant slot and each remove an
occupied one, at every point (after any number of steps) `occupied()` returns
`true` iff the current version is odd. -/
theorem C2_parity_invariant {T : Type} (ops : List (Op T))
    (h : Slot.ValidFrom Slot.new ops) (n : Nat) :
    (Slot.run Slot.new (ops.take n)).occupied = true ↔
      (Slot.run Slot.new (ops.take n)).version % 2 = 1 :=
  occupied_iff_mod_two _

/-- Witness for C2: the valid trace [store 1, remove] observed after one step. -/
theorem C2_witness :
    (Slot.run Slot.new ([Op.store 1, Op.remove].take 1)).occupied = true ↔
      (Slot.run (Slot.new : Slot Nat) ([Op.store 1, Op.remove].take 1)).version % 2 = 1 :=
  C2_parity_invariant [Op.store 1, Op.remove] ⟨by decide, by decide, trivial⟩ 1

/-- Claim C3: storing into a vacant slot (even version) sets the version to
`version ||| 1`, which equals `version + 1` and is odd, and makes the stored
value the slot's value, so `value()` afterwards returns it. -/
theorem C3_store_value {T : Type} (s : Slot T) (h : s.version % 2 = 0) (v : T) :
    (s.store_value v).version = s.version ||| 1 ∧
    (s.store_value v).version = s.version + 1 ∧
    (s.store_value v).version % 2 = 1 ∧
    (s.store_value v).value = some (some v) := by
  have hodd : (s.store_value v).version % 2 = 1 := lor_one_odd s.version
  have hocc : (s.store_value v).occupied = true :=
    (occupied_iff_mod_two _).mpr hodd
  refine ⟨rfl, ?_, hodd, ?_⟩
  · exact lor_one_of_even h
  · show to_option (s.store_value v).occupied (s.store_value v).storage = some (some v)
    rw [hocc]
    rfl

/-- Witness for C3: storing 5 into a fresh slot. -/
theorem C3_witness :
    ((Slot.new : Slot Nat).store_value 5).version = (Slot.new : Slot Nat).version ||| 1 ∧
    ((Slot.new : Slot Nat).store_value 5).version = (Slot.new : Slot Nat).version + 1 ∧
    ((Slot.new : Slot Nat).store_value 5).version % 2 = 1 ∧
    ((Slot.new : Slot Nat).store_value 5).value = some (some 5) :=
  C3_store_value Slot.new (by decide) 5

/-- Claim C4, counterexample: on an occupied slot whose version is
`2^32 - 1`, `remove_value` wraps the version to 0, which is NOT strictly
greater than the previously occupied version. -/
theorem C4_counterexample :
    ({ storage := some 7, version := 2 ^ 32 - 1, next_free := 0 } : Slot Nat).occupied = true ∧
    ¬ ({ storage := some 7, version := 2 ^ 32 - 1, next_free := 0 } : Slot Nat).version <
      (({ storage := some 7, version := 2 ^ 32 - 1, next_free := 0 } : Slot Nat).remove_value).fst.version := by
  decide

/-- Claim C4, amended: on an occupied slot (odd version) whose increment does
not wrap (version + 1 < 2^32), `remove_value` advances the version by one,
making it even and strictly greater than the previously occupied version,
returns exactly the stored value, and leaves the slot vacant.  (At version
`2^32 - 1` the version instead wraps to 0, see the counterexample and C10.) -/
theorem C4_remove_value {T : Type} (s : Slot T) (v : T)
    (hval : s.storage = some v) (hodd : s.version % 2 = 1)
    (hbound : s.version + 1 < u32Mod) :
    (s.remove_value).fst.version = s.version + 1 ∧
    (s.remove_value).fst.version % 2 = 0 ∧
    s.version < (s.remove_value).fst.version ∧
    (s.remove_value).snd = some v ∧
    (s.remove_value).fst.occupied = false := by
  have hver : (s.remove_value).fst.version = s.version + 1 := by
    simp [Slot.remove_value, Nat.mod_eq_of_lt hbound]
  have heven : (s.remove_value).fst.version % 2 = 0 := by
    rw [hver]; omega
  refine ⟨hver, heven, ?_, ?_, ?_⟩
  · rw [hver]; omega
  · simp [Slot.remove_value, hval]
  · simp [Slot.occupied, heven]

/-- Witness for C4: removing from an occupied slot with version 1. -/
theorem C4_witness :
    (({ storage := some 9, version := 1, next_free := 0 } : Slot Nat).remove_value).fst.version = 2 ∧
    (({ storage := some 9, version := 1, next_free := 0 } : Slot Nat).remove_value).fst.version % 2 = 0 ∧
    (1 : Nat) < 2 ∧
    (({ storage := some 9, version := 1, next_free := 0 } : Slot Nat).remove_value).snd = some 9 ∧
    (({ storage := some 9, version := 1, next_free := 0 } : Slot Nat).remove_value).fst.occupied = false :=
  C4_remove_value { storage := some 9, version := 1, next_free := 0 } 9
    rfl rfl (by decide)

/-- Claim C5: starting from any vacant slot with a valid `u32` version, after
store (version `v1`), remove, store again, `get_versioned v1` (and the `mut`
variant) returns no value — stale handles never see the new value, even at
the wraparound boundary. -/
theorem C5_stale_rejection {T : Type} (s : Slot T) (a b : T)
    (hvac : s.version % 2 = 0) (hbound : s.version < u32Mod) :
    ((((s.store_value a).remove_value).fst.store_value b).get_versioned
      (s.store_value a).version) = none ∧
    ((((s.store_value a).remove_value).fst.store_value b).get_versioned_mut
      (s.store_value a).version) = none := by
  have hu : u32Mod = 4294967296 := by norm_num [u32Mod]
  have hv1 : (s.store_value a).version = s.version + 1 := lor_one_of_even hvac
  have hv2 : (((s.store_value a).remove_value).fst.store_value b).version =
      ((s.version + 2) % u32Mod) ||| 1 := by
    show (((s.version ||| 1) + 1) % u32Mod) ||| 1 = _
    rw [lor_one_of_even hvac]
  have hne : (((s.store_value a).remove_value).fst.store_value b).version ≠
      (s.store_value a).version := by
    rw [hv2, hv1]
    rcases Nat.lt_or_ge (s.version + 2) u32Mod with hlt | hge
    · rw [Nat.mod_eq_of_lt hlt, lor_one_of_even (by omega)]
      omega
    · have heq : s.version + 2 = u32Mod := by omega
      rw [heq, Nat.mod_self]
      have h1 : (0 : Nat) ||| 1 = 1 := rfl
      rw [h1]
      omega
  constructor
  · exact get_versioned_eq_none_of_ne _ _ hne
  · have hb : (((s.store_value a).remove_value).fst.store_value b).has_version
        (s.store_value a).version = false := by
      simp [Slot.has_version, hne]
    simp [Slot.get_versioned_mut, hb, to_option]

/-- Witness for C5: the full store/remove/store cycle on a fresh slot. -/
theorem C5_witness :
    ((((Slot.new : Slot Nat).store_value 10).remove_value).fst.store_value 20).get_versioned
      ((Slot.new : Slot Nat).store_value 10).version = none ∧
    ((((Slot.new : Slot Nat).store_value 10).remove_value).fst.store_value 20).get_versioned_mut
      ((Slot.new : Slot Nat).store_value 10).version = none :=
  C5_stale_rejection Slot.new 10 20 (by decide) (by decide)

/-- Claim C6: for every slot satisfying the parity invariant, serialize then
deserialize yields a slot with the same storage contents (hence same occupancy
and same value when occupied) and the same version, but with `next_free`
reset to 0; moreover the serialized form never depends on `next_free`. -/
theorem C6_serde_roundtrip {T : Type} (s : Slot T)
    (h : s.version % 2 = 1 ↔ s.storage.isSome = true) :
    Slot.deserialize (Slot.serialize s) =
      Except.ok { storage := s.storage, version := s.version, next_free := 0 } ∧
    ∀ n : Nat, Slot.serialize { s with next_free := n } = Slot.serialize s := by
  refine ⟨?_, fun n => rfl⟩
  rcases Nat.mod_two_eq_zero_or_one s.version with hmod | hmod
  · have hocc : s.occupied = false := by
      simp [Slot.occupied, hmod]
    have hst : s.storage = none := by
      cases hs : s.storage with
      | none => rfl
      | some v => rw [hs] at h; simp at h; omega
    have hval : (Slot.serialize s).value = s.storage := by
      show (to_option s.occupied s.storage).join = s.storage
      rw [hocc, hst]
      rfl
    simp [Slot.deserialize, hval, hst, Slot.fromSafe,
      show (Slot.serialize s).version = s.version from rfl, hmod]
  · have hocc : s.occupied = true := (occupied_iff_mod_two s).mpr hmod
    have hsome : s.storage.isSome = true := h.mp hmod
    have hval : (Slot.serialize s).value = s.storage := by
      show (to_option s.occupied s.storage).join = s.storage
      rw [hocc]
      rfl
    simp [Slot.deserialize, hval, hsome, Slot.fromSafe,
      show (Slot.serialize s).version = s.version from rfl, hmod]

/-- Witness for C6: an occupied slot with value 5, version 5 and a nonzero
free pointer round-trips to the same slot with `next_free` reset. -/
theorem C6_witness :
    Slot.deserialize (Slot.serialize
        ({ storage := some 5, version := 5, next_free := 42 } : Slot Nat)) =
      Except.ok { storage := some 5, version := 5, next_free := 0 } ∧
    ∀ n : Nat, Slot.serialize
        { ({ storage := some 5, version := 5, next_free := 42 } : Slot Nat) with next_free := n } =
      Slot.serialize ({ storage := some 5, version := 5, next_free := 42 } : Slot Nat) :=
  C6_serde_roundtrip { storage := some 5, version := 5, next_free := 42 } (by decide)

/-- Claim C7: deserialization fails exactly when value presence and version
parity disagree; consistent records deserialize to a slot carrying the
record's value and version unchanged (never silently repaired), with
`next_free` zero. -/
theorem C7_deserialize_consistency {T : Type} (safe : SafeSlot T) :
    ((∃ e, Slot.deserialize safe = Except.error e) ↔
      ¬ (safe.value.isSome = decide (safe.version % 2 = 1))) ∧
    (∀ s, Slot.deserialize safe = Except.ok s →
      s.storage = safe.value ∧ s.version = safe.version ∧ s.next_free = 0) := by
  have hd : decide (safe.version % 2 > 0) = decide (safe.version % 2 = 1) := by
    simp only [decide_eq_decide]
    omega
  by_cases hc : (decide (safe.version % 2 > 0) ^^ safe.value.isSome) = true
  · have herr : Slot.deserialize safe =
        Except.error "inconsistent occupation in Slot" := by
      simp [Slot.deserialize, hc]
    refine ⟨⟨fun _ => ?_, fun _ => ⟨_, herr⟩⟩, fun s hs => ?_⟩
    · rw [hd] at hc
      intro heq
      rw [heq] at hc
      simp at hc
    · rw [herr] at hs
      cases hs
  · have hok : Slot.deserialize safe = Except.ok (Slot.fromSafe safe) := by
      simp [Slot.deserialize] at hc ⊢
      simp [hc]
    refine ⟨⟨fun he => ?_, fun hne => ?_⟩, fun s hs => ?_⟩
    · rcases he with ⟨e, he⟩
      rw [hok] at he
      cases he
    · exfalso
      apply hne
      rw [hd] at hc
      cases hb1 : safe.value.isSome <;>
        cases hb2 : decide (safe.version % 2 = 1) <;>
        simp_all
    · rw [hok] at hs
      cases hs
      exact ⟨rfl, rfl, rfl⟩

/-- Witness for C7: the inconsistent record (value 5, even version 4) is
rejected with an error. -/
theorem C7_witness :
    ∃ e, Slot.deserialize ({ value := some 5, version := 4 } : SafeSlot Nat) =
      Except.error e :=
  (C7_deserialize_consistency ({ value := some 5, version := 4 } : SafeSlot Nat)).1.mpr
    (by decide)

/-- Claim C8: cloning keeps the version and copies `next_free` verbatim;
an occupied slot clones to an occupied slot holding a clone of the contained
value, a vacant slot clones to a vacant slot (uninitialized storage). -/
theorem C8_clone {T : Type} (f : T → T) (s : Slot T) :
    (Slot.clone f s).version = s.version ∧
    (Slot.clone f s).next_free = s.next_free ∧
    (Slot.clone f s).occupied = s.occupied ∧
    (s.occupied = false → (Slot.clone f s).storage = none) ∧
    (∀ v, s.occupied = true → s.storage = some v →
      (Slot.clone f s).storage = some (f v)) := by
  refine ⟨rfl, rfl, rfl, ?_, ?_⟩
  · intro h
    simp [Slot.clone, h]
  · intro v h hv
    simp [Slot.clone, h, hv]

/-- Witness for C8: cloning an occupied slot with `Nat.succ` as the value's
clone function. -/
theorem C8_witness :
    (Slot.clone Nat.succ
      ({ storage := some 3, version := 1, next_free := 7 } : Slot Nat)).storage = some 4 :=
  (C8_clone Nat.succ
    ({ storage := some 3, version := 1, next_free := 7 } : Slot Nat)).2.2.2.2 3
    (by decide) rfl

/-- Claim C9: `occupied_version()` returns `version ||| 1` — the current
version unchanged when the slot is occupied, and exactly the version the slot
has immediately after a store when it is vacant (indeed after any store). -/
theorem C9_occupied_version {T : Type} (s : Slot T) :
    s.occupied_version = s.version ||| 1 ∧
    (s.occupied = true → s.occupied_version = s.version) ∧
    (∀ v : T, (s.store_value v).version = s.occupied_version) := by
  refine ⟨rfl, ?_, fun v => rfl⟩
  intro h
  exact lor_one_of_odd ((occupied_iff_mod_two s).mp h)

/-- Witness for C9: an occupied slot with version 3 reports occupied version 3. -/
theorem C9_witness :
    ({ storage := some 2, version := 3, next_free := 0 } : Slot Nat).occupied_version = 3 :=
  (C9_occupied_version
    ({ storage := some 2, version := 3, next_free := 0 } : Slot Nat)).2.1 (by decide)

/-- Claim C10: removing from an occupied slot at version `2^32 - 1` does not
fail: the wrapping increment takes the version to 0 and the stored value is
still returned. -/
theorem C10_wraparound_remove :
    ({ storage := some 7, version := 2 ^ 32 - 1, next_free := 0 } : Slot Nat).occupied = true ∧
    (({ storage := some 7, version := 2 ^ 32 - 1, next_free := 0 } : Slot Nat).remove_value).fst.version = 0 ∧
    (({ storage := some 7, version := 2 ^ 32 - 1, next_free := 0 } : Slot Nat).remove_value).snd = some 7 := by
  decide
